import Mathlib

set_option autoImplicit false

namespace PasswordMakerSlint

/-- Modulus of Rust's 64-bit `usize` type. -/
def USIZE_MOD : Nat := 2 ^ 64

/-- Subtraction on `usize` as executed by a release build: `a - b` wraps modulo
    `2 ^ 64` when `b > a` (a debug build panics on the same underflow instead).
    Faithful for operands below `USIZE_MOD`. -/
def usizeSub (a b : Nat) : Nat :=
  (a + USIZE_MOD - b) % USIZE_MOD

/-- Profile record `PwmSetting` from `src/main.rs` lines 60-77 (an identical copy
    exists in `src/pwm_settings.rs`).  The Rust fields `prefix` and `suffix` are
    renamed `pre` and `suf` because their Rust names are unavailable here. -/
structure PwmSetting where
  name : String
  hash_algorithm : String
  use_leet : String
  leet_level : String
  characters : String
  username : String
  modifier : String
  password_length : Nat
  pre : String
  suf : String
  use_domain : Bool
  use_subdomain : Bool
  use_protocol : Bool
  use_params : Bool
  use_userinfo : Bool
deriving DecidableEq

/-- Constant default profile `PWM_DEFAULT` from `src/main.rs` lines 129-148; its
    name is the trait constant `PwmGui::DEFAULT`, the string "default".  Exotic
    characters of the alphabet are written with hex escapes. -/
def PWM_DEFAULT : PwmSetting :=
  { name := "default"
    hash_algorithm := "Md5"
    use_leet := "NotAtAll"
    leet_level := ""
    characters := "ABCDEFGHIJKLMNOPQRSTUVWXYZabcdefghijklmnopqrstuvwxyz0123456789\x60~!@#$%^&*()_-+=\x7b\x7d|[]\x5c:\x22;\x27<>?,./"
    username := ""
    modifier := ""
    password_length := 8
    pre := ""
    suf := ""
    use_domain := true
    use_subdomain := true
    use_protocol := false
    use_params := false
    use_userinfo := false }

/-- Profile store `PwmSettings` from `src/main.rs` lines 218-222: the ordered
    profile list plus the active index (a `usize`, modelled as `Nat`). -/
structure PwmSettings where
  settings : List PwmSetting
  current_setting : Nat
deriving DecidableEq

/-- Constructor `PwmSettings::new` from `src/main.rs` lines 233-239. -/
def PwmSettings.new : PwmSettings :=
  { settings := [], current_setting := 0 }

/-- Operation `PwmSettings::add_setting` from `src/main.rs` lines 240-247: push a
    clone of `PWM_DEFAULT`, rename the last element, and set the active index to
    `self.settings.len() - 1`. -/
def PwmSettings.add_setting (s : PwmSettings) (name : String) : PwmSettings :=
  let pushed := s.settings ++ [PWM_DEFAULT]
  let renamed :=
    match pushed.getLast? with
    | some last => pushed.dropLast ++ [{ last with name := name }]
    | none => pushed
  { settings := renamed, current_setting := usizeSub renamed.length 1 }

/-- Operation `PwmSettings::delete_setting` from `src/main.rs` lines 248-259
    (identical in `src/pwm_settings.rs` lines 56-67): early return on the empty
    store, clamp the index with `len - 1` if out of range, `Vec::remove`, then
    clamp again with `len - 1` - the final clamp underflows when the store has
    become empty. -/
def PwmSettings.delete_setting (s : PwmSettings) : PwmSettings :=
  if s.settings.isEmpty then s
  else
    let cur0 :=
      if s.current_setting ≥ s.settings.length then usizeSub s.settings.length 1
      else s.current_setting
    let removed := s.settings.eraseIdx cur0
    let cur1 :=
      if cur0 ≥ removed.length then usizeSub removed.length 1
      else cur0
    { settings := removed, current_setting := cur1 }

/-- Operation `PwmSettings::set_current_setting` from `src/pwm_settings.rs` lines
    71-77: adopt an in-bounds index, otherwise `self.settings.len() - 1`. -/
def PwmSettings.set_current_setting (s : PwmSettings) (current : Nat) : PwmSettings :=
  { s with
    current_setting :=
      if current < s.settings.length then current
      else usizeSub s.settings.length 1 }

/-- Operation `PwmSettings::get_current_setting_data` from `src/main.rs` lines
    260-265 (identical in `src/pwm_settings.rs` lines 78-83): `Vec::get` at the
    active index, falling back to `PWM_DEFAULT` on `None`. -/
def PwmSettings.get_current_setting_data (s : PwmSettings) : PwmSetting :=
  match s.settings[s.current_setting]? with
  | some pwms => pwms
  | none => PWM_DEFAULT

/-- Operation `PwmSettings::set_current_setting_data` from `src/main.rs` lines
    266-271 (identical in `src/pwm_settings.rs` lines 84-89): overwrite through
    `Vec::get_mut` at the active index, returning unchanged on `None`. -/
def PwmSettings.set_current_setting_data (s : PwmSettings) (setting : PwmSetting) : PwmSettings :=
  if s.current_setting < s.settings.length then
    { s with settings := s.settings.set s.current_setting setting }
  else s

/-- Hash algorithm selector used by `src/main.rs`.  Modelled from the spec: the
    capability set of section 4.1 is the five algorithms MD4, MD5, SHA1, SHA256,
    RIPEMD160; the Rust enum `HashAlgorithm` lives in the external
    passwordmaker-rs crate, outside this repository's sources. -/
inductive HashAlgorithm where
  | Md4
  | Md5
  | Sha1
  | Sha256
  | Ripemd160
deriving DecidableEq

/-- Modelled from the spec: name lookup for the hash-algorithm family (section
    4.1: "Selection is by name lookup; an unrecognized name is a
    UnknownHashAlgorithm error, not a silent default").  The strum-derived
    `HashAlgorithm::from_str` lives in the external passwordmaker-rs crate. -/
def HashAlgorithm.from_str (s : String) : Option HashAlgorithm :=
  if s = "Md4" then some .Md4
  else if s = "Md5" then some .Md5
  else if s = "Sha1" then some .Sha1
  else if s = "Sha256" then some .Sha256
  else if s = "Ripemd160" then some .Ripemd160
  else none

/-- Leet intensity level.  Modelled from the spec: section 4.4 gives a bounded
    range of nine levels; the Rust enum `LeetLevel` lives in the external
    passwordmaker-rs crate. -/
inductive LeetLevel where
  | One
  | Two
  | Three
  | Four
  | Five
  | Six
  | Seven
  | Eight
  | Nine
deriving DecidableEq

/-- Modelled from the spec: the strum-derived `LeetLevel::from_str` of the
    external passwordmaker-rs crate recognizes exactly the nine variant names;
    every other string fails to parse. -/
def LeetLevel.from_str (s : String) : Option LeetLevel :=
  if s = "One" then some .One
  else if s = "Two" then some .Two
  else if s = "Three" then some .Three
  else if s = "Four" then some .Four
  else if s = "Five" then some .Five
  else if s = "Six" then some .Six
  else if s = "Seven" then some .Seven
  else if s = "Eight" then some .Eight
  else if s = "Nine" then some .Nine
  else none

/-- Discriminants of the leet modes.  Modelled from the spec: section 4.4 lists
    the four modes; the Rust enum lives in the external passwordmaker-rs crate. -/
inductive UseLeetWhenGeneratingDiscriminants where
  | NotAtAll
  | Before
  | After
  | BeforeAndAfter
deriving DecidableEq

/-- Modelled from the spec: the strum-derived discriminant parser of the external
    passwordmaker-rs crate recognizes exactly the four variant names. -/
def UseLeetWhenGeneratingDiscriminants.from_str (s : String) : Option UseLeetWhenGeneratingDiscriminants :=
  if s = "NotAtAll" then some .NotAtAll
  else if s = "Before" then some .Before
  else if s = "After" then some .After
  else if s = "BeforeAndAfter" then some .BeforeAndAfter
  else none

/-- Leet configuration.  Modelled from the spec: section 4.4; `NotAtAll` is the
    identity configuration, the other modes carry an intensity level. -/
inductive UseLeetWhenGenerating where
  | NotAtAll
  | Before (level : LeetLevel)
  | After (level : LeetLevel)
  | BeforeAndAfter (level : LeetLevel)
deriving DecidableEq

/-- Error type `LeetError` from `src/main.rs` lines 33-36. -/
inductive LeetError where
  | ParseLeetLevelError
  | ParseUseLeetError
deriving DecidableEq

/-- Modelled from the spec: section 7 derivation-parameter failures of the
    external passwordmaker-rs engine constructor; only the empty-alphabet
    validation is relevant to this development. -/
inductive SettingsError where
  | EmptyAlphabet
deriving DecidableEq

/-- Error type `PwmSettingsError` from `src/main.rs` lines 38-45.  The Rust
    `HashAlgorithmError` variant carries a strum `ParseError` payload with a
    single possible value (`VariantNotFound`), so the payload is omitted. -/
inductive PwmSettingsError where
  | Ok
  | NoSetting
  | HashAlgorithmError
  | LeetError (error : LeetError)
  | SettingsError (error : SettingsError)
deriving DecidableEq

/-- Display formatting of `PwmSettingsError` from `src/main.rs` line 38: the
    strum-derived `Display` prints the variant name. -/
def PwmSettingsError.toStr : PwmSettingsError → String
  | .Ok => "Ok"
  | .NoSetting => "NoSetting"
  | .HashAlgorithmError => "HashAlgorithmError"
  | .LeetError _ => "LeetError"
  | .SettingsError _ => "SettingsError"

/-- Error type `PwmConfigError` from `src/main.rs` lines 47-58. -/
inductive PwmConfigError where
  | Ok
  | NoHome
  | NoLock
  | NoApp
  | FailOpenForWrite
  | FailWrite
  | FailOpenForRead
  | FailRead
  | Str2Toml
deriving DecidableEq

/-- Argument bundle of a `Pwm::new` call (`src/main.rs` lines 388-397 and
    417-427): the validated derivation parameters handed to the external
    passwordmaker-rs engine.  `pre` and `suf` stand for the Rust `prefix` and
    `suffix` arguments. -/
structure PwmParams where
  hash_algo : HashAlgorithm
  use_leet : UseLeetWhenGenerating
  characters : String
  username : String
  modifier : String
  password_length : Nat
  pre : String
  suf : String
deriving DecidableEq

/-- Modelled from the spec: the parameter validation of the engine constructor
    `PasswordMaker::new` (sections 4.5 and 7: the alphabet must be non-empty,
    violations are a typed error).  The constructor itself lives in the external
    passwordmaker-rs crate. -/
def Pwm.new (p : PwmParams) : Except SettingsError PwmParams :=
  if p.characters.isEmpty then .error .EmptyAlphabet else .ok p

/-- Function `create_use_leet_when_generating` from `src/main.rs` lines 436-459
    (identical in `src/pwm_gui_data.rs` lines 127-150): parse the mode
    discriminant, return `NotAtAll` unconditionally, and for the three other
    modes require the level string to parse, with no clamping or defaulting. -/
def create_use_leet_when_generating (use_leet : String) (leet_level : String) :
    Except LeetError UseLeetWhenGenerating :=
  match UseLeetWhenGeneratingDiscriminants.from_str use_leet with
  | some u =>
    match u, LeetLevel.from_str leet_level with
    | .NotAtAll, _ => .ok .NotAtAll
    | .Before, some level => .ok (.Before level)
    | .After, some level => .ok (.After level)
    | .BeforeAndAfter, some level => .ok (.BeforeAndAfter level)
    | _, _ => .error .ParseLeetLevelError
  | none => .error .ParseUseLeetError

/-- Constant argument bundle of the `Pwm::new` call inside `master_verification`
    (`src/main.rs` lines 417-428): SHA-256, no leet, the 52 ASCII letters, empty
    username, modifier, prefix and suffix, and output length 3. -/
def master_verification_params : PwmParams :=
  { hash_algo := .Sha256
    use_leet := .NotAtAll
    characters := "ABCDEFGHIJKLMNOPQRSTUVWXYZabcdefghijklmnopqrstuvwxyz"
    username := ""
    modifier := ""
    password_length := 3
    pre := ""
    suf := "" }

/-- URL argument of the `pwm.generate` call inside `master_verification`
    (`src/main.rs` line 429): the one-character string " ". -/
def VERIFICATION_URL : String := " "

/-- Function `master_verification` from `src/main.rs` lines 417-434.  The
    argument `generate` stands for the external passwordmaker-rs generation
    (`pwm.generate` collapsed with its error-display arm); the function applies
    it to the constant parameters and the constant URL, independent of any
    profile store. -/
def master_verification (generate : PwmParams → String → String → String)
    (master : String) : String :=
  generate master_verification_params VERIFICATION_URL master

/-- Application state `PwmGuiData` from `src/main.rs` lines 274-278. -/
structure PwmGuiData where
  settings : PwmSettings
  settings_error : PwmSettingsError
  error : PwmConfigError
deriving DecidableEq

/-- Constructor `PwmGuiData::new` from `src/main.rs` lines 291-297. -/
def PwmGuiData.new : PwmGuiData :=
  { settings := PwmSettings.new, settings_error := .Ok, error := .Ok }

/-- Method `PwmGuiData::pwm_from_setting` from `src/main.rs` lines 372-402:
    fetch the active profile, parse the hash-algorithm name, build the leet
    configuration, and hand the parameters to the engine constructor, mapping
    each failure to its `PwmSettingsError` variant. -/
def PwmGuiData.pwm_from_setting (g : PwmGuiData) : Except PwmSettingsError PwmParams :=
  match g.settings.settings[g.settings.current_setting]? with
  | none => .error .NoSetting
  | some setting =>
    match HashAlgorithm.from_str setting.hash_algorithm with
    | none => .error .HashAlgorithmError
    | some hash_algo =>
      match create_use_leet_when_generating setting.use_leet setting.leet_level with
      | .error e => .error (.LeetError e)
      | .ok use_leet =>
        match Pwm.new
            { hash_algo := hash_algo
              use_leet := use_leet
              characters := setting.characters
              username := setting.username
              modifier := setting.modifier
              password_length := setting.password_length
              pre := setting.pre
              suf := setting.suf } with
        | .ok pwm => .ok pwm
        | .error e => .error (.SettingsError e)

/-- Method `PwmGuiData::create_password` from `src/main.rs` lines 404-412.  The
    argument `generate` stands for the external `pwm.generate` collapsed with
    its error-display arm; a `pwm_from_setting` failure is rendered through the
    error's `Display` (`to_string`) instead. -/
def PwmGuiData.create_password (g : PwmGuiData)
    (generate : PwmParams → String → String → String) (url master : String) : String :=
  match g.pwm_from_setting with
  | .ok pwm => generate pwm url master
  | .error e => e.toStr

/-- Method `PwmGuiData::create_settings` from `src/main.rs` lines 299-310: push
    `PWM_DEFAULT`, set the active index to 0, and record the `pwm_from_setting`
    error, if any, in `settings_error`. -/
def PwmGuiData.create_settings (g : PwmGuiData) : PwmGuiData :=
  let g' : PwmGuiData :=
    { g with
      settings :=
        { settings := g.settings.settings ++ [PWM_DEFAULT], current_setting := 0 } }
  match g'.pwm_from_setting with
  | .ok _ => g'
  | .error e => { g' with settings_error := e }

/-- Modelled from the spec: the outcome of the persistence gateway steps of
    `load_settings` (section 6) - home-directory lookup, file read, UTF-8
    decode, TOML parse.  The environment and file system accesses themselves
    are outside the shallow embedding. -/
inductive LoadOutcome where
  | noHome
  | openReadFail
  | utf8Fail
  | tomlFail
  | tomlOk (s : PwmSettings)
deriving DecidableEq

/-- Predicate selecting the failing `LoadOutcome` constructors. -/
def LoadOutcome.isFailure : LoadOutcome → Bool
  | .tomlOk _ => false
  | _ => true

/-- Typed configuration error that `load_settings` (`src/main.rs` lines 312-343)
    returns for each failing outcome. -/
def loadFailureError : LoadOutcome → PwmConfigError
  | .noHome => .NoHome
  | .openReadFail => .FailOpenForRead
  | .utf8Fail => .FailRead
  | _ => .Str2Toml

/-- Method `PwmGuiData::load_settings` from `src/main.rs` lines 312-343, with
    the persistence environment abstracted into a `LoadOutcome`: every failing
    step calls `create_settings` and returns its typed error; success replaces
    the store with the decoded one. -/
def PwmGuiData.load_settings (o : LoadOutcome) (g : PwmGuiData) :
    PwmGuiData × Except PwmConfigError Unit :=
  match o with
  | .noHome => (g.create_settings, .error .NoHome)
  | .openReadFail => (g.create_settings, .error .FailOpenForRead)
  | .utf8Fail => (g.create_settings, .error .FailRead)
  | .tomlFail => (g.create_settings, .error .Str2Toml)
  | .tomlOk s => ({ g with settings := s }, .ok ())

/-- GUI-side profile record `PwmSlintSetting` generated by Slint: identical to
    `PwmSetting` except that `password_length` is a Slint `int` (i32), modelled
    as `Int`.  `pre` and `suf` stand for `prefix` and `suffix`. -/
@[ext]
structure PwmSlintSetting where
  name : String
  hash_algorithm : String
  use_leet : String
  leet_level : String
  characters : String
  username : String
  modifier : String
  password_length : Int
  pre : String
  suf : String
  use_domain : Bool
  use_subdomain : Bool
  use_protocol : Bool
  use_params : Bool
  use_userinfo : Bool
deriving DecidableEq

/-- Largest value of Rust's `i32`. -/
def I32_MAX : Int := 2147483647

/-- Conversion `From<PwmSlintSetting> for PwmSetting` from `src/main.rs` lines
    79-102: every field is carried over; `password_length` goes through
    `i32::try_into::<usize>()`, which fails exactly for negative values, and a
    failure is mapped to 0. -/
def PwmSetting.ofSlint (item : PwmSlintSetting) : PwmSetting :=
  { name := item.name
    hash_algorithm := item.hash_algorithm
    use_leet := item.use_leet
    leet_level := item.leet_level
    characters := item.characters
    username := item.username
    modifier := item.modifier
    password_length := if item.password_length < 0 then 0 else item.password_length.toNat
    pre := item.pre
    suf := item.suf
    use_domain := item.use_domain
    use_subdomain := item.use_subdomain
    use_protocol := item.use_protocol
    use_params := item.use_params
    use_userinfo := item.use_userinfo }

/-- Conversion `From<PwmSetting> for PwmSlintSetting` from `src/main.rs` lines
    104-127: every field is carried over; `password_length` goes through
    `usize::try_into::<i32>()`, which fails exactly above `i32::MAX`, and a
    failure is mapped to 0. -/
def PwmSlintSetting.ofSetting (item : PwmSetting) : PwmSlintSetting :=
  { name := item.name
    hash_algorithm := item.hash_algorithm
    use_leet := item.use_leet
    leet_level := item.leet_level
    characters := item.characters
    username := item.username
    modifier := item.modifier
    password_length :=
      if (item.password_length : Int) ≤ I32_MAX then (item.password_length : Int) else 0
    pre := item.pre
    suf := item.suf
    use_domain := item.use_domain
    use_subdomain := item.use_subdomain
    use_protocol := item.use_protocol
    use_params := item.use_params
    use_userinfo := item.use_userinfo }

/-- Store whose single profile names an unrecognized hash algorithm; input for
    the unknown-hash-algorithm evaluation. -/
def unknownHashStore : PwmGuiData :=
  { settings :=
      { settings := [{ PWM_DEFAULT with hash_algorithm := "NoSuchHash" }]
        current_setting := 0 }
    settings_error := .Ok
    error := .Ok }

/-- GUI-side profile with a negative requested password length; input for the
    conversion evaluation. -/
def negLengthSetting : PwmSlintSetting :=
  { PwmSlintSetting.ofSetting PWM_DEFAULT with password_length := -5 }

/-- C1: evaluation of `delete_setting` at the failing input, a store of length 1
    with active index 0.  The claim requires the active index to transition to
    an explicit no-active-profile state without unchecked subtraction and
    without panicking, but after the removal empties the store the code runs
    `self.settings.len() - 1` with `len == 0`: the usize subtraction underflows,
    leaving the wrapped index `2 ^ 64 - 1` (a release build; a debug build
    panics at this subtraction).  A second `delete_setting` returns early on the
    empty store and keeps that out-of-range index. -/
theorem C1_delete_on_singleton_underflows :
    PwmSettings.delete_setting { settings := [PWM_DEFAULT], current_setting := 0 } =
      { settings := [], current_setting := USIZE_MOD - 1 } ∧
    PwmSettings.delete_setting
        (PwmSettings.delete_setting { settings := [PWM_DEFAULT], current_setting := 0 }) =
      { settings := [], current_setting := USIZE_MOD - 1 } := by
  constructor <;> decide

/-- C2 counterexample: the claim states that `master_verification` uses an empty
    URL input, but `src/main.rs` line 429 passes the one-character string " ".
    Instantiating the abstract generation function with one that returns its URL
    argument exhibits the non-empty URL. -/
theorem C2_counterexample_url_not_empty :
    master_verification (fun _ url _ => url) ("x") ≠ ("") := by
  decide

/-- C2 (amended): `master_verification` is a fixed, profile-independent
    derivation: constant SHA-256 algorithm, a constant 52-letter all-ASCII-alpha
    alphabet, constant length 3, empty username, modifier, prefix and suffix, no
    leet, and the constant one-space URL input " "; for every generation
    function and master secret it simply applies the generation to these
    constants, reading no profile store. -/
theorem C2_master_verification_constants :
    master_verification_params.hash_algo = HashAlgorithm.Sha256 ∧
    master_verification_params.use_leet = UseLeetWhenGenerating.NotAtAll ∧
    master_verification_params.characters.length = 52 ∧
    master_verification_params.characters.toList.all (fun c => c.isAlpha) = true ∧
    master_verification_params.username = ("") ∧
    master_verification_params.modifier = ("") ∧
    master_verification_params.password_length = 3 ∧
    master_verification_params.pre = ("") ∧
    master_verification_params.suf = ("") ∧
    VERIFICATION_URL = (" ") ∧
    ∀ generate master,
      master_verification generate master =
        generate master_verification_params VERIFICATION_URL master := by
  refine ⟨rfl, rfl, by decide, by decide, rfl, rfl, rfl, rfl, rfl, rfl, fun _ _ => rfl⟩

/-- C3 counterexample: on the empty store the claim's clamp to "number of
    profiles minus 1" fails - the usize subtraction `0 - 1` wraps to
    `2 ^ 64 - 1` (a debug build panics), which is not the claimed index. -/
theorem C3_counterexample_empty_store :
    (PwmSettings.set_current_setting { settings := [], current_setting := 0 } 0).current_setting ≠
      ({ settings := [], current_setting := 0 } : PwmSettings).settings.length - 1 ∧
    (PwmSettings.set_current_setting { settings := [], current_setting := 0 } 0).current_setting =
      USIZE_MOD - 1 := by
  constructor <;> decide

/-- C3 (amended): for every non-empty store (of realistic size) and every index,
    `set_current_setting` adopts an in-bounds index and otherwise clamps the
    active index to the last valid index, without reporting an error; the
    profile list is untouched. -/
theorem C3_set_current_setting_clamps (s : PwmSettings) (i : Nat)
    (hne : s.settings ≠ []) (hlen : s.settings.length < USIZE_MOD) :
    (s.set_current_setting i).settings = s.settings ∧
    (i < s.settings.length → (s.set_current_setting i).current_setting = i) ∧
    (s.settings.length ≤ i → (s.set_current_setting i).current_setting = s.settings.length - 1) := by
  refine ⟨rfl, ?_, ?_⟩
  · intro h
    simp [PwmSettings.set_current_setting, h]
  · intro h
    have hpos : 1 ≤ s.settings.length := by
      cases hs : s.settings with
      | nil => exact absurd hs hne
      | cons a l => simp [hs]
    have hlt : ¬ i < s.settings.length := Nat.not_lt.mpr h
    simp only [PwmSettings.set_current_setting, hlt, if_false, usizeSub]
    have h1 : s.settings.length + USIZE_MOD - 1 = (s.settings.length - 1) + USIZE_MOD := by
      omega
    rw [h1, Nat.add_mod_right]
    exact Nat.mod_eq_of_lt (by omega)

/-- Witness for C3: on a one-profile store, requesting the out-of-range index 5
    clamps the active index to 0. -/
theorem C3_witness :
    (PwmSettings.set_current_setting { settings := [PWM_DEFAULT], current_setting := 0 } 5).current_setting = 0 :=
  (C3_set_current_setting_clamps { settings := [PWM_DEFAULT], current_setting := 0 } 5
    (by decide) (by decide)).2.2 (by decide)

/-- C4: `add_setting` appends exactly one profile, a clone of `PWM_DEFAULT` with
    its name replaced by the given name, and sets the active index to the last
    index (the previous length). -/
theorem C4_add_setting_appends (s : PwmSettings) (name : String)
    (hlen : s.settings.length < USIZE_MOD) :
    (s.add_setting name).settings = s.settings ++ [{ PWM_DEFAULT with name := name }] ∧
    (s.add_setting name).current_setting = s.settings.length := by
  have hlast : (s.settings ++ [PWM_DEFAULT]).getLast? = some PWM_DEFAULT := by
    simp
  have hdrop : (s.settings ++ [PWM_DEFAULT]).dropLast = s.settings := by
    simp
  constructor
  · simp [PwmSettings.add_setting, hlast, hdrop]
  · simp only [PwmSettings.add_setting, hlast, hdrop, usizeSub, List.length_append,
      List.length_cons, List.length_nil]
    have h1 : s.settings.length + 1 + USIZE_MOD - 1 = s.settings.length + USIZE_MOD := by
      omega
    rw [h1, Nat.add_mod_right]
    exact Nat.mod_eq_of_lt hlen

/-- Witness for C4: adding "work" to the empty store yields a store of length 1
    with active index 0 whose single profile is the default renamed "work". -/
theorem C4_witness :
    (PwmSettings.add_setting { settings := [], current_setting := 0 } ("work")).settings =
      [{ PWM_DEFAULT with name := "work" }] ∧
    (PwmSettings.add_setting { settings := [], current_setting := 0 } ("work")).current_setting = 0 :=
  C4_add_setting_appends { settings := [], current_setting := 0 } ("work") (by decide)

/-- C5: whenever the active index does not address a profile, reading the active
    data returns the constant default profile `PWM_DEFAULT` instead of failing.
    The default is a closed constant of this development, as the Rust static is
    only ever read through `Lazy::force`, never mutated. -/
theorem C5_get_data_falls_back_to_default (s : PwmSettings)
    (h : s.settings.length ≤ s.current_setting) :
    s.get_current_setting_data = PWM_DEFAULT := by
  simp [PwmSettings.get_current_setting_data, List.getElem?_eq_none h]

/-- Witness for C5: reading the active data of the empty store yields the
    default profile. -/
theorem C5_witness :
    PwmSettings.get_current_setting_data { settings := [], current_setting := 0 } = PWM_DEFAULT :=
  C5_get_data_falls_back_to_default { settings := [], current_setting := 0 } (by decide)

/-- Helper: whatever `pwm_from_setting` returns, `create_settings` leaves the
    store with the default profile appended and active index 0. -/
theorem create_settings_settings (g : PwmGuiData) :
    (g.create_settings).settings =
      { settings := g.settings.settings ++ [PWM_DEFAULT], current_setting := 0 } := by
  simp only [PwmGuiData.create_settings]
  split <;> rfl

/-- C6: from an initially empty store, every failing `load_settings` outcome (no
    home directory, unreadable file, non-UTF-8 contents, TOML decode failure)
    initializes the store with exactly one default profile at active index 0
    and returns the corresponding typed error instead of aborting. -/
theorem C6_load_failure_initializes_default (g : PwmGuiData) (o : LoadOutcome)
    (hg : g.settings.settings = []) (ho : o.isFailure = true) :
    (PwmGuiData.load_settings o g).1.settings =
      { settings := [PWM_DEFAULT], current_setting := 0 } ∧
    (PwmGuiData.load_settings o g).2 = Except.error (loadFailureError o) := by
  cases o with
  | tomlOk s => simp [LoadOutcome.isFailure] at ho
  | noHome =>
    refine ⟨?_, rfl⟩
    show g.create_settings.settings = _
    rw [create_settings_settings, hg]
    rfl
  | openReadFail =>
    refine ⟨?_, rfl⟩
    show g.create_settings.settings = _
    rw [create_settings_settings, hg]
    rfl
  | utf8Fail =>
    refine ⟨?_, rfl⟩
    show g.create_settings.settings = _
    rw [create_settings_settings, hg]
    rfl
  | tomlFail =>
    refine ⟨?_, rfl⟩
    show g.create_settings.settings = _
    rw [create_settings_settings, hg]
    rfl

/-- Witness for C6: a fresh application state and a missing home directory
    produce the one-default-profile store and the `NoHome` error. -/
theorem C6_witness :
    (PwmGuiData.load_settings LoadOutcome.noHome PwmGuiData.new).1.settings =
      { settings := [PWM_DEFAULT], current_setting := 0 } ∧
    (PwmGuiData.load_settings LoadOutcome.noHome PwmGuiData.new).2 =
      Except.error PwmConfigError.NoHome :=
  C6_load_failure_initializes_default PwmGuiData.new LoadOutcome.noHome rfl rfl

/-- C7: for every mode string parsing to `Before`, `After` or `BeforeAndAfter`,
    a level string that does not parse makes `create_use_leet_when_generating`
    return the `ParseLeetLevelError` validation error (no clamping, no
    defaulting); for a mode string parsing to `NotAtAll` it succeeds with the
    identity configuration regardless of the level string. -/
theorem C7_leet_level_validation :
    (∀ mode level d, UseLeetWhenGeneratingDiscriminants.from_str mode = some d →
        d ≠ UseLeetWhenGeneratingDiscriminants.NotAtAll →
        LeetLevel.from_str level = none →
        create_use_leet_when_generating mode level = Except.error LeetError.ParseLeetLevelError) ∧
    (∀ mode level,
        UseLeetWhenGeneratingDiscriminants.from_str mode =
          some UseLeetWhenGeneratingDiscriminants.NotAtAll →
        create_use_leet_when_generating mode level = Except.ok UseLeetWhenGenerating.NotAtAll) := by
  constructor
  · intro mode level d hd hne hll
    unfold create_use_leet_when_generating
    rw [hd, hll]
    cases d with
    | NotAtAll => exact absurd rfl hne
    | Before => rfl
    | After => rfl
    | BeforeAndAfter => rfl
  · intro mode level hd
    unfold create_use_leet_when_generating
    rw [hd]

/-- Witness for C7: mode "Before" with the unparsable level "zz" is rejected,
    while mode "NotAtAll" with the same level string succeeds. -/
theorem C7_witness :
    create_use_leet_when_generating ("Before") ("zz") =
      Except.error LeetError.ParseLeetLevelError ∧
    create_use_leet_when_generating ("NotAtAll") ("zz") =
      Except.ok UseLeetWhenGenerating.NotAtAll :=
  ⟨C7_leet_level_validation.1 ("Before") ("zz") UseLeetWhenGeneratingDiscriminants.Before
      (by decide) (by decide) (by decide),
   C7_leet_level_validation.2 ("NotAtAll") ("zz") (by decide)⟩

/-- C8: whenever the active profile's hash-algorithm string is unrecognized,
    `pwm_from_setting` returns the unknown-hash-algorithm error, and
    `create_password` renders that error's display text for every possible
    generation function - never a password derived with a substituted
    algorithm. -/
theorem C8_unknown_hash_algorithm (g : PwmGuiData) (setting : PwmSetting)
    (hget : g.settings.settings[g.settings.current_setting]? = some setting)
    (halgo : HashAlgorithm.from_str setting.hash_algorithm = none) :
    g.pwm_from_setting = Except.error PwmSettingsError.HashAlgorithmError ∧
    ∀ generate url master,
      g.create_password generate url master = PwmSettingsError.HashAlgorithmError.toStr := by
  have h1 : g.pwm_from_setting = Except.error PwmSettingsError.HashAlgorithmError := by
    unfold PwmGuiData.pwm_from_setting
    simp only [hget, halgo]
  refine ⟨h1, ?_⟩
  intro generate url master
  unfold PwmGuiData.create_password
  rw [h1]

/-- Witness for C8: a store whose single profile names the algorithm
    "NoSuchHash" yields the `HashAlgorithmError`, and password creation renders
    the string "HashAlgorithmError". -/
theorem C8_witness :
    PwmGuiData.pwm_from_setting unknownHashStore =
      Except.error PwmSettingsError.HashAlgorithmError ∧
    PwmGuiData.create_password unknownHashStore (fun _ _ _ => ("x")) ("url") ("master") =
      ("HashAlgorithmError") :=
  ⟨(C8_unknown_hash_algorithm unknownHashStore
      { PWM_DEFAULT with hash_algorithm := "NoSuchHash" } rfl (by decide)).1,
   ((C8_unknown_hash_algorithm unknownHashStore
      { PWM_DEFAULT with hash_algorithm := "NoSuchHash" } rfl (by decide)).2
      (fun _ _ _ => ("x")) ("url") ("master")).trans rfl⟩

/-- C9: whenever the active index does not address a profile (in particular on
    the empty store), `set_current_setting_data` is a complete no-op: the store
    is returned unchanged and no error is raised. -/
theorem C9_set_data_noop_out_of_range (s : PwmSettings) (p : PwmSetting)
    (h : s.settings.length ≤ s.current_setting) :
    s.set_current_setting_data p = s := by
  unfold PwmSettings.set_current_setting_data
  rw [if_neg (Nat.not_lt.mpr h)]

/-- Witness for C9: writing the default profile into the empty store changes
    nothing. -/
theorem C9_witness :
    PwmSettings.set_current_setting_data { settings := [], current_setting := 0 } PWM_DEFAULT =
      { settings := [], current_setting := 0 } :=
  C9_set_data_noop_out_of_range { settings := [], current_setting := 0 } PWM_DEFAULT (by decide)

/-- C10: converting a GUI-side setting to the engine side maps a negative
    `password_length` to 0 and preserves a non-negative one exactly; the reverse
    conversion preserves every length representable as an i32; hence all other
    fields round-trip unchanged through the two conversions, and the round trip
    changes `password_length` only by clamping a negative value to 0. -/
theorem C10_password_length_conversion (x : PwmSlintSetting) (hx : x.password_length ≤ I32_MAX) :
    (x.password_length < 0 → (PwmSetting.ofSlint x).password_length = 0) ∧
    (0 ≤ x.password_length → ((PwmSetting.ofSlint x).password_length : Int) = x.password_length) ∧
    (∀ y : PwmSetting, (y.password_length : Int) ≤ I32_MAX →
        (PwmSlintSetting.ofSetting y).password_length = (y.password_length : Int)) ∧
    PwmSlintSetting.ofSetting (PwmSetting.ofSlint x) =
      { x with password_length := if x.password_length < 0 then 0 else x.password_length } := by
  have hfwd : 0 ≤ x.password_length → ((PwmSetting.ofSlint x).password_length : Int) = x.password_length := by
    intro h
    simp only [PwmSetting.ofSlint]
    rw [if_neg (Int.not_lt.mpr h)]
    exact Int.toNat_of_nonneg h
  have hback : ∀ y : PwmSetting, (y.password_length : Int) ≤ I32_MAX →
      (PwmSlintSetting.ofSetting y).password_length = (y.password_length : Int) := by
    intro y hy
    simp only [PwmSlintSetting.ofSetting]
    rw [if_pos hy]
  have hfield : (PwmSlintSetting.ofSetting (PwmSetting.ofSlint x)).password_length =
      if x.password_length < 0 then 0 else x.password_length := by
    by_cases h : x.password_length < 0
    · simp [PwmSetting.ofSlint, PwmSlintSetting.ofSetting, h, I32_MAX]
    · rw [hback (PwmSetting.ofSlint x) (by rw [hfwd (Int.not_lt.mp h)]; exact hx)]
      rw [hfwd (Int.not_lt.mp h), if_neg h]
  refine ⟨?_, hfwd, hback, ?_⟩
  · intro h
    simp [PwmSetting.ofSlint, h]
  · apply PwmSlintSetting.ext <;> first | rfl | exact hfield

/-- Witness for C10: a GUI-side setting requesting length -5 converts to the
    engine-side length 0. -/
theorem C10_witness :
    (PwmSetting.ofSlint negLengthSetting).password_length = 0 :=
  (C10_password_length_conversion negLengthSetting (by decide)).1 (by decide)

end PasswordMakerSlint
